import Mathlib

/-!
Verification of the Orders REST service (Order / Item entities, JSON
serialization, persistence layer, HTTP routes) against its specification.

The service is shallowly embedded: Python dictionaries / JSON values become
the `JValue` inductive; the SQLAlchemy entities `Order` and `Item` become
structures whose dynamically typed attributes hold `JValue`s; exceptions
become `Except DataValidationError`; the database becomes an explicit
`DB` state threaded through the persistence operations.
-/

namespace OrderSvc

/-- Untyped JSON / Python values flowing through the service.
Python `None` is `null`; floats are modelled as rationals. -/
inductive JValue where
  | null
  | bool (b : Bool)
  | int (n : Int)
  | float (q : ℚ)
  | str (s : String)
  | arr (xs : List JValue)
  | obj (kvs : List (String × JValue))

/-- Python type name of a value, used in mirrored error messages. -/
def pyTypeName : JValue → String
  | .null => "NoneType"
  | .bool _ => "bool"
  | .int _ => "int"
  | .float _ => "float"
  | .str _ => "str"
  | .arr _ => "list"
  | .obj _ => "dict"

/-- Looks up key `k` in a Python dict (`data[k]` / `data.get(k)` success case). -/
def objFind (kvs : List (String × JValue)) (k : String) : Option JValue :=
  match kvs.find? (fun p => p.1 == k) with
  | some p => some p.2
  | none => none

/-- Python `data.get(k)`: the value under `k`, or `None` when absent. -/
def pyGet (kvs : List (String × JValue)) (k : String) : JValue :=
  match objFind kvs k with
  | some v => v
  | none => .null

/-- Python iteration `for x in v`: the sequence of values produced, or
`none` when the value is not iterable (raising `TypeError`).
Iterating a dict yields its keys, iterating a string yields its
one-character strings. -/
def pyIter : JValue → Option (List JValue)
  | .arr xs => some xs
  | .obj kvs => some (kvs.map (fun p => .str p.1))
  | .str s => some (s.toList.map (fun c => .str (String.mk [c])))
  | _ => none

/-- The single validation-error type of the persistence layer
(`service/models/persistent_base.py`), carrying a human-readable message. -/
structure DataValidationError where
  message : String

/-- Returns `true` when a fallible computation raised an error. -/
def isErr {ε α : Type} : Except ε α → Bool
  | .error _ => true
  | .ok _ => false

/-! ## The Item entity (src/service/models/item.py) -/

/-- The `Item` SQLAlchemy model. Attribute values are dynamically typed
(whatever `deserialize` assigned), hence `JValue`; a fresh `Item()` has
every attribute `None`. -/
structure Item where
  id : JValue
  order_id : JValue
  quantity : JValue
  unit_price : JValue
  name : JValue

/-- A fresh `Item()`: every column attribute is `None`. -/
def emptyItem : Item :=
  ⟨.null, .null, .null, .null, .null⟩

/-- Embeds `Item.serialize`: the dictionary with keys
`id`, `name`, `order_id`, `quantity`, `unit_price`. -/
def Item.serialize (it : Item) : JValue :=
  .obj [("id", it.id), ("name", it.name), ("order_id", it.order_id),
        ("quantity", it.quantity), ("unit_price", it.unit_price)]

/-- Embeds `Item.deserialize`: `order_id` and `name` via `data.get` (default
`None`), `quantity` and `unit_price` via indexing (`KeyError` when missing,
converted to `DataValidationError`); a non-dict `data` raises
`AttributeError` at `data.get` (no such attribute), also converted. -/
def Item.deserialize (self : Item) (data : JValue) : Except DataValidationError Item :=
  match data with
  | .obj kvs =>
    let s1 : Item := { self with order_id := pyGet kvs "order_id", name := pyGet kvs "name" }
    match objFind kvs "quantity" with
    | none => .error ⟨"Invalid Item: missing quantity"⟩
    | some q =>
      match objFind kvs "unit_price" with
      | none => .error ⟨"Invalid Item: missing unit_price"⟩
      | some up => .ok { s1 with quantity := q, unit_price := up }
  | other =>
    .error ⟨"Invalid attribute: " ++ pyTypeName other ++ " object has no attribute get"⟩

/-! ## The Order entity (src/service/models/order.py) -/

/-- The `Order` SQLAlchemy model: `id`, `customer_id` columns and the
in-memory `items` relationship collection. -/
structure Order where
  id : JValue
  customer_id : JValue
  items : List Item

/-- A fresh `Order()`: columns `None`, empty `items` collection. -/
def emptyOrder : Order :=
  ⟨.null, .null, []⟩

/-- Embeds `Order.serialize`: dictionary with `id`, `customer_id`, and
`items` built by appending each owned item's `serialize()`. -/
def Order.serialize (o : Order) : JValue :=
  .obj [("id", o.id), ("customer_id", o.customer_id),
        ("items", .arr (o.items.map Item.serialize))]

/-- Deserializes each entry of the `items` list into a fresh `Item()`,
propagating the first nested `DataValidationError`. -/
def deserializeItems : List JValue → Except DataValidationError (List Item)
  | [] => .ok []
  | x :: rest =>
    match Item.deserialize emptyItem x with
    | .error e => .error e
    | .ok it =>
      match deserializeItems rest with
      | .error e => .error e
      | .ok its => .ok (it :: its)

/-- Embeds `Order.deserialize`: `customer_id` via indexing (`KeyError` when
missing on a dict, `TypeError` when `data` is not a dict — both converted to
`DataValidationError`), then iterates `data.get("items", [])` appending a
deserialized `Item` per entry; a non-iterable `items` value raises
`TypeError`, and nested item failures propagate unchanged. -/
def Order.deserialize (self : Order) (data : JValue) : Except DataValidationError Order :=
  match data with
  | .obj kvs =>
    match objFind kvs "customer_id" with
    | none => .error ⟨"Invalid Order: missing customer_id"⟩
    | some cid =>
      let itemsVal := match objFind kvs "items" with
        | some v => v
        | none => .arr []
      match pyIter itemsVal with
      | none =>
        .error ⟨"Invalid Order: body of request contained bad or no data "
                ++ pyTypeName itemsVal ++ " object is not iterable"⟩
      | some xs =>
        match deserializeItems xs with
        | .error e => .error e
        | .ok its => .ok { self with customer_id := cid, items := self.items ++ its }
  | other =>
    .error ⟨"Invalid Order: body of request contained bad or no data "
            ++ pyTypeName other ++ " object is not subscriptable"⟩

/-! ## String representations (src/service/models/order.py, item.py) -/

/-- Python `str()` of an attribute value as interpolated by an f-string:
`None` renders as `None`, numbers and booleans by their textual form,
strings verbatim. -/
def pyStr : JValue → String
  | .null => "None"
  | .bool true => "True"
  | .bool false => "False"
  | .int n => toString n
  | .float q => toString q
  | .str s => s
  | .arr _ => "[...]"
  | .obj _ => "\x7b...\x7d"

/-- Embeds `Item.__repr__`. -/
def Item.reprStr (it : Item) : String :=
  "<Item " ++ pyStr it.name ++ " id=[" ++ pyStr it.id ++ "] Order[" ++ pyStr it.order_id ++ "]>"

/-- Python repr of the `items` list as interpolated by the Order f-string:
brackets around the comma-separated reprs of the elements. -/
def pyListRepr (its : List Item) : String :=
  "[" ++ String.intercalate ", " (its.map Item.reprStr) ++ "]"

/-- Embeds `Order.__repr__`, the f-string
`<Order {self.id} items=[{self.items}]>`. -/
def Order.reprStr (o : Order) : String :=
  "<Order " ++ pyStr o.id ++ " items=[" ++ pyListRepr o.items ++ "]>"

/-- The textual shape the specification claims for an Order's repr:
the literal pieces around the id and the items collection's
representation. -/
def specOrderReprShape (idText itemsText : String) : String :=
  "<Order " ++ idText ++ " items=[" ++ itemsText ++ "]>"

/-! ## The database (declared schema of the `order` and `item` tables)

The tables declared in src/service/models: `order (id, customer_id)` and
`item (id, order_id FK ondelete=CASCADE, quantity, unit_price, name)` with
check constraints `quantity > 0` and `unit_price >= 0`, `customer_id`
`String(16) nullable=False`, `name` `String(64)`, `order_id` `nullable=False`.
The storage engine itself is external to the repository; inserts and
updates below enforce exactly the constraints the models declare. -/

/-- A persisted row of the `order` table. -/
structure OrderRow where
  id : Nat
  customer_id : JValue

/-- A persisted row of the `item` table. -/
structure ItemRow where
  id : Nat
  order_id : Nat
  quantity : JValue
  unit_price : JValue
  name : JValue

/-- The relational store: the two tables plus the id sequences. -/
structure DB where
  orders : List OrderRow
  items : List ItemRow
  nextOrderId : Nat
  nextItemId : Nat

/-- The empty database. -/
def DB.empty : DB := ⟨[], [], 1, 1⟩

/-- Storage acceptance for `customer_id` (`String(16), nullable=False`):
a string of at most 16 characters. -/
def sqlOkCustomerId : JValue → Bool
  | .str s => s.length ≤ 16
  | _ => false

/-- Storage acceptance for `quantity` (`Integer` column, check
`quantity > 0`): SQL `NULL` passes the check, an integer must be
positive, any other value fails typing at the column. -/
def sqlOkQuantity : JValue → Bool
  | .null => true
  | .int n => 0 < n
  | _ => false

/-- Storage acceptance for `unit_price` (`Float` column, check
`unit_price >= 0`): SQL `NULL` passes, a number must be non-negative. -/
def sqlOkUnitPrice : JValue → Bool
  | .null => true
  | .int n => 0 ≤ n
  | .float q => 0 ≤ q
  | _ => false

/-- Storage acceptance for `name` (`String(64)` column, nullable). -/
def sqlOkName : JValue → Bool
  | .null => true
  | .str s => s.length ≤ 64
  | _ => false

/-- An item entity whose attribute values the `item` table accepts. -/
def itemStorable (it : Item) : Bool :=
  sqlOkQuantity it.quantity && sqlOkUnitPrice it.unit_price && sqlOkName it.name

/-- The item-table row an item entity flushes to under parent `oid`
(the relationship sets the foreign key from the owning Order). -/
def Item.toRow (it : Item) (iid oid : Nat) : ItemRow :=
  ⟨iid, oid, it.quantity, it.unit_price, it.name⟩

/-- The entity an `item` row loads back to. -/
def ItemRow.toEntity (r : ItemRow) : Item :=
  ⟨.int r.id, .int r.order_id, r.quantity, r.unit_price, r.name⟩

/-- Inserts one `item` row: enforces the foreign key to `order.id` and the
declared column types and check constraints, assigns the next item id. -/
def itemInsert (db : DB) (oid : Nat) (it : Item) : Except String (ItemRow × DB) :=
  if db.orders.any (fun r => r.id == oid) then
    if sqlOkQuantity it.quantity then
      if sqlOkUnitPrice it.unit_price then
        if sqlOkName it.name then
          let row := it.toRow db.nextItemId oid
          .ok (row, { db with items := db.items ++ [row], nextItemId := db.nextItemId + 1 })
        else .error "value too long for type character varying(64)"
      else .error "new row for relation item violates check constraint check_price_non_negative"
    else .error "new row for relation item violates check constraint check_quantity_positive"
  else .error "insert or update on table item violates foreign key constraint"

/-- Updates the `item` row with primary key `iid`: the declared constraints
are enforced on the new values just as on insert. -/
def itemUpdate (db : DB) (iid : Nat) (it : Item) : Except String DB :=
  if db.items.any (fun r => r.id == iid) then
    if sqlOkQuantity it.quantity then
      if sqlOkUnitPrice it.unit_price then
        if sqlOkName it.name then
          .ok { db with items := db.items.map (fun r =>
                  if r.id == iid then
                    { r with quantity := it.quantity, unit_price := it.unit_price,
                             name := it.name }
                  else r) }
        else .error "value too long for type character varying(64)"
      else .error "new row for relation item violates check constraint check_price_non_negative"
    else .error "new row for relation item violates check constraint check_quantity_positive"
  else .error "no row matched the given primary key"

/-- Flushes the in-memory `items` collection of a new Order, one row per
item in order, threading the database. -/
def insertItems (db : DB) (oid : Nat) : List Item → Except String (List Item × DB)
  | [] => .ok ([], db)
  | it :: rest =>
    match itemInsert db oid it with
    | .error e => .error e
    | .ok (row, db1) =>
      match insertItems db1 oid rest with
      | .error e => .error e
      | .ok (its, db2) => .ok (row.toEntity :: its, db2)

/-- Modelled from the spec: `PersistentBase.create` for an Order
(src/service/models/persistent_base.py is not under src/).  Per the spec,
`create()` inserts a new row, committing immediately; the declared schema
constraints are enforced at the storage boundary; owned items flush with
the order under its new id.  On failure the caller's database state is
unchanged (rollback) and the message of the storage error is carried in
the raised `DataValidationError`. -/
def orderCreate (o : Order) (db : DB) : Except DataValidationError (Order × DB) :=
  if sqlOkCustomerId o.customer_id then
    let oid := db.nextOrderId
    let db1 : DB := { db with orders := db.orders ++ [⟨oid, o.customer_id⟩],
                              nextOrderId := oid + 1 }
    match insertItems db1 oid o.items with
    | .error e => .error ⟨e⟩
    | .ok (its, db2) => .ok ({ o with id := .int oid, items := its }, db2)
  else .error ⟨"invalid input value for column customer_id"⟩

/-- Modelled from the spec: `PersistentBase.delete` for an Order
(persistent_base.py is not under src/), combined with the cascade the
models declare in src (`ForeignKey("order.id", ondelete="CASCADE")` with
`passive_deletes=True`): deleting the order row deletes every item row
referencing it. -/
def orderDelete (db : DB) (oid : Nat) : DB :=
  { db with orders := db.orders.filter (fun r => r.id != oid),
            items := db.items.filter (fun r => r.order_id != oid) }

/-- Modelled from the spec: `PersistentBase.find` for an Order
(persistent_base.py is not under src/): the entity with the given primary
key, its `items` relationship loaded from the item table, or `none`. -/
def orderFind (db : DB) (oid : Nat) : Option Order :=
  match db.orders.find? (fun r => r.id == oid) with
  | none => none
  | some r =>
      some ⟨.int r.id, r.customer_id,
            (db.items.filter (fun i => i.order_id == oid)).map ItemRow.toEntity⟩

/-- Outcome of a `create()` call observed together with the entity and the
database state it leaves behind. -/
structure CreateAttempt (α : Type) where
  outcome : Except DataValidationError Unit
  entity : α
  db : DB

/-- Modelled from the spec: `PersistentBase.create` shared by every entity,
under a possible storage failure at commit (persistent_base.py is not
under src/; the behaviour is fixed by spec section 4.1 and
`test_add_order_failed`).  `commit` is the entity's own row insertion;
`storageFailure = some msg` plays commit raising with message `msg`: the
transaction is rolled back, a `DataValidationError` carrying the original
message is raised, and the entity keeps no partially assigned id. -/
def pbCreateAttempt {α : Type}
    (commit : α → DB → Except DataValidationError (α × DB))
    (x : α) (db : DB) (storageFailure : Option String) : CreateAttempt α :=
  match storageFailure with
  | some msg => ⟨.error ⟨msg⟩, x, db⟩
  | none =>
    match commit x db with
    | .error e => ⟨.error e, x, db⟩
    | .ok (x2, db2) => ⟨.ok (), x2, db2⟩

/-- The `create()` attempt of an Order entity. -/
def orderCreateAttempt (o : Order) (db : DB) (storageFailure : Option String) :
    CreateAttempt Order :=
  pbCreateAttempt orderCreate o db storageFailure

/-! ## The HTTP layer (src/service/routes.py) -/

/-- An incoming HTTP request: its headers and its JSON body. -/
structure Request where
  headers : List (String × String)
  body : JValue

/-- An HTTP response: status code, JSON body, response headers. -/
structure Response where
  status : Nat
  body : JValue
  headers : List (String × String)

/-- ASCII lowercase of a character (header names are ASCII). -/
def lowerChar (c : Char) : Char :=
  if 65 ≤ c.toNat ∧ c.toNat ≤ 90 then Char.ofNat (c.toNat + 32) else c

/-- ASCII lowercase of a string. -/
def strLower (s : String) : String :=
  String.mk (s.toList.map lowerChar)

/-- Werkzeug header lookup: header names compare case-insensitively. -/
def getHeader (hs : List (String × String)) (k : String) : Option String :=
  match hs.find? (fun p => strLower p.1 == strLower k) with
  | some p => some p.2
  | none => none

/-- Embeds `check_content_type("application/json")`: aborts 415 when the
`Content-Type` header is absent, returns when it equals the expected
string exactly, and aborts 415 otherwise. -/
def check_content_type (hs : List (String × String)) (content_type : String) :
    Option Nat :=
  match getHeader hs "Content-Type" with
  | none => some 415
  | some v => if v == content_type then none else some 415

/-- Embeds `create_orders` (`POST /orders`): checks the content type (415
abort), deserializes the body into a fresh `Order()`, persists it via
`create()`, and answers 201 with the serialized order and a `Location`
header (the placeholder string `unknown`).  The translation of the raised
`DataValidationError` into a 400 response is modelled from the spec: the
error-handler module (`service/common`) is not under src/, and spec
sections 4.4 and 7 fix validation failures to status 400. -/
def create_orders (req : Request) (db : DB) : Response × DB :=
  match check_content_type req.headers "application/json" with
  | some code => (⟨code, .str "Content-Type must be application/json", []⟩, db)
  | none =>
    match Order.deserialize emptyOrder req.body with
    | .error e => (⟨400, .str e.message, []⟩, db)
    | .ok o =>
      match orderCreate o db with
      | .error e => (⟨400, .str e.message, []⟩, db)
      | .ok (o2, db2) => (⟨201, o2.serialize, [("Location", "unknown")]⟩, db2)

/-- Numeric value of an ASCII digit character, `none` otherwise. -/
def digitVal (c : Char) : Option Nat :=
  if 48 ≤ c.toNat ∧ c.toNat ≤ 57 then some (c.toNat - 48) else none

/-- Parses a run of decimal digits. -/
def parseNatCore (acc : Nat) : List Char → Option Nat
  | [] => some acc
  | c :: cs =>
    match digitVal c with
    | some d => parseNatCore (acc * 10 + d) cs
    | none => none

/-- The integer path-segment converter: a non-empty all-digit segment
parses to its value, anything else is rejected. -/
def parseIntSeg (s : String) : Option Nat :=
  if s.toList.isEmpty then none else parseNatCore 0 s.toList

/-- Modelled from the spec: the `GET /orders/{id}` route (`get_orders`) is
not present in src/service/routes.py (left as a TODO there); spec sections
4.4 and 6 fix its behaviour: 200 with the serialized Order when found,
404 when absent, 400 when the id path segment is not an integer. -/
def get_orders (seg : String) (db : DB) : Response :=
  match parseIntSeg seg with
  | none => ⟨400, .str "Invalid order id", []⟩
  | some oid =>
    match orderFind db oid with
    | none => ⟨404, .str "Order was not found", []⟩
    | some o => ⟨200, o.serialize, []⟩

/-- Field of an object-shaped response or request body. -/
def bodyField (v : JValue) (k : String) : Option JValue :=
  match v with
  | .obj kvs => objFind kvs k
  | _ => none

/-! ## Payload validity (used by the amended creation claim) -/

/-- An entry of the `items` list that both deserializes (its `quantity`
and `unit_price` keys are present) and flushes to a row the declared
schema accepts. -/
def itemPayloadOk (x : JValue) : Bool :=
  match x with
  | .obj kvs =>
    (match objFind kvs "quantity" with
     | some q => sqlOkQuantity q
     | none => false) &&
    (match objFind kvs "unit_price" with
     | some up => sqlOkUnitPrice up
     | none => false) &&
    sqlOkName (pyGet kvs "name")
  | _ => false

/-- An Order payload that deserializes and persists: a dict whose
`customer_id` the `order` table accepts and whose `items` entry, when
present, is a list of acceptable item dicts. -/
def payloadOk (body : JValue) : Bool :=
  match body with
  | .obj kvs =>
    (match objFind kvs "customer_id" with
     | some cid => sqlOkCustomerId cid
     | none => false) &&
    (match objFind kvs "items" with
     | none => true
     | some (.arr xs) => xs.all itemPayloadOk
     | some _ => false)
  | _ => false

/-- A dict containing both keys `Item.deserialize` indexes. -/
def itemKeysPresent (d : JValue) : Bool :=
  match d with
  | .obj kvs => (objFind kvs "quantity").isSome && (objFind kvs "unit_price").isSome
  | _ => false

/-- A value on which `Order.deserialize` cannot even read `customer_id`:
not a dict, or a dict without that key. -/
def orderKeyMissing (d : JValue) : Bool :=
  match d with
  | .obj kvs => !(objFind kvs "customer_id").isSome
  | _ => true

/-! ## Theorems -/

/-- C9: for every Order, its string representation is exactly the literal
characters `<Order `, the id, ` items=[`, the items collection's
representation, and `]>`. -/
theorem order_repr_exact (o : Order) :
    Order.reprStr o = specOrderReprShape (pyStr o.id) (pyListRepr o.items)
    ∧ specOrderReprShape (pyStr o.id) (pyListRepr o.items)
      = "<Order " ++ pyStr o.id ++ " items=[" ++ pyListRepr o.items ++ "]>" :=
  ⟨rfl, rfl⟩

/-- C3: deserializing the dictionary produced by an Item's `serialize()`
into a fresh Item succeeds and preserves `name`, `quantity` and
`unit_price` (the system-generated `id` is excluded). -/
theorem item_roundtrip (it : Item) :
    ∃ r : Item, Item.deserialize emptyItem it.serialize = .ok r
      ∧ r.name = it.name ∧ r.quantity = it.quantity ∧ r.unit_price = it.unit_price :=
  ⟨_, rfl, rfl, rfl, rfl⟩

/-- C4: after deleting an Order, no persisted item row carries the deleted
order's id as its `order_id` (the declared `ondelete=CASCADE` foreign key
removes the order's items with it). -/
theorem cascade_delete (db : DB) (oid : Nat) (r : ItemRow)
    (hr : r ∈ (orderDelete db oid).items) : r.order_id ≠ oid := by
  simp only [orderDelete, List.mem_filter] at hr
  simpa using hr.2

/-- Applies the cascade-delete theorem on a concrete database: deleting
order 1 leaves only the item row of order 2, whose `order_id` is not 1. -/
theorem cascade_delete_witness :
    (⟨2, 2, .null, .null, .null⟩ : ItemRow).order_id ≠ 1 :=
  cascade_delete ⟨[⟨1, .str "a"⟩, ⟨2, .str "b"⟩],
                  [⟨1, 1, .null, .null, .null⟩, ⟨2, 2, .null, .null, .null⟩], 3, 3⟩
    1 ⟨2, 2, .null, .null, .null⟩ (List.Mem.head _)

/-- C8: for every entity, when `create()` hits a storage failure at commit
the raised `DataValidationError` carries the original message, the
database is rolled back unchanged, and the in-memory entity is left
exactly as it was (no partially assigned id). -/
theorem create_rollback {α : Type}
    (commit : α → DB → Except DataValidationError (α × DB))
    (x : α) (db : DB) (msg : String) :
    (pbCreateAttempt commit x db (some msg)).outcome = .error ⟨msg⟩
    ∧ (pbCreateAttempt commit x db (some msg)).db = db
    ∧ (pbCreateAttempt commit x db (some msg)).entity = x :=
  ⟨rfl, rfl, rfl⟩

/-- C2: `Item.deserialize` raises `DataValidationError` exactly when the
`quantity` or `unit_price` key is missing or the input is not a dict;
`Order.deserialize` raises whenever `customer_id` is unreadable (missing
key or non-dict input); in particular `Item.deserialize({})` and
`Order.deserialize([])` raise; and on success each deserialize returns the
populated entity itself. -/
theorem deserialize_validation (i : Item) (o : Order) (d : JValue) :
    isErr (Item.deserialize i d) = !(itemKeysPresent d)
    ∧ (orderKeyMissing d = true → isErr (Order.deserialize o d) = true)
    ∧ isErr (Item.deserialize i (.obj [])) = true
    ∧ isErr (Order.deserialize o (.arr [])) = true
    ∧ (∀ kvs q up, d = .obj kvs → objFind kvs "quantity" = some q →
        objFind kvs "unit_price" = some up →
        Item.deserialize i d =
          .ok { i with order_id := pyGet kvs "order_id", name := pyGet kvs "name",
                       quantity := q, unit_price := up })
    ∧ (∀ r, Order.deserialize o d = .ok r →
        ∃ kvs cid, d = .obj kvs ∧ objFind kvs "customer_id" = some cid
          ∧ r.customer_id = cid ∧ r.id = o.id
          ∧ ∃ new, r.items = o.items ++ new) := by
  refine ⟨?_, ?_, rfl, rfl, ?_, ?_⟩
  · cases d with
    | obj kvs =>
      simp only [Item.deserialize, itemKeysPresent]
      cases h1 : objFind kvs "quantity" with
      | none => simp [isErr, h1]
      | some q =>
        cases h2 : objFind kvs "unit_price" with
        | none => simp [isErr, h1, h2]
        | some up => simp [isErr, h1, h2]
    | _ => rfl
  · cases d with
    | obj kvs =>
      simp only [Order.deserialize, orderKeyMissing]
      cases h1 : objFind kvs "customer_id" with
      | none => simp [isErr, h1]
      | some cid => simp [h1]
    | _ => intro h; rfl
  · intro kvs q up hd h1 h2
    subst hd
    simp [Item.deserialize, h1, h2]
  · intro r hr
    cases d with
    | obj kvs =>
      cases h1 : objFind kvs "customer_id" with
      | none =>
        simp only [Order.deserialize, h1] at hr
        exact Except.noConfusion hr
      | some cid =>
        simp only [Order.deserialize, h1] at hr
        cases hi : objFind kvs "items" with
        | none =>
          simp only [hi, pyIter, deserializeItems] at hr
          injection hr with h4
          subst h4
          exact ⟨kvs, cid, rfl, h1, rfl, rfl, [], rfl⟩
        | some v =>
          simp only [hi] at hr
          cases h2 : pyIter v with
          | none =>
            simp only [h2] at hr
            exact Except.noConfusion hr
          | some xs =>
            simp only [h2] at hr
            cases h3 : deserializeItems xs with
            | error e =>
              simp only [h3] at hr
              exact Except.noConfusion hr
            | ok its =>
              simp only [h3] at hr
              injection hr with h4
              subst h4
              exact ⟨kvs, cid, rfl, h1, rfl, rfl, its, rfl⟩
    | null => exact absurd hr (by simp [Order.deserialize])
    | bool b => exact absurd hr (by simp [Order.deserialize])
    | int n => exact absurd hr (by simp [Order.deserialize])
    | float q => exact absurd hr (by simp [Order.deserialize])
    | str s => exact absurd hr (by simp [Order.deserialize])
    | arr xs => exact absurd hr (by simp [Order.deserialize])

/-- Applies the deserialize-validation theorem at concrete inputs: the
empty dict for an Item, the empty list for an Order, a populated success
case, and a dict without `customer_id` for an Order. -/
theorem deserialize_validation_witness :
    isErr (Item.deserialize emptyItem (.obj [])) = true
    ∧ isErr (Order.deserialize emptyOrder (.arr [])) = true
    ∧ Item.deserialize emptyItem (.obj [("quantity", .int 3), ("unit_price", .int 2)])
        = .ok { emptyItem with order_id := .null, name := .null,
                               quantity := .int 3, unit_price := .int 2 }
    ∧ isErr (Order.deserialize emptyOrder (.obj [])) = true := by
  refine ⟨(deserialize_validation emptyItem emptyOrder (.obj [])).2.2.1,
          (deserialize_validation emptyItem emptyOrder (.obj [])).2.2.2.1,
          (deserialize_validation emptyItem emptyOrder
            (.obj [("quantity", .int 3), ("unit_price", .int 2)])).2.2.2.2.1
            _ (.int 3) (.int 2) rfl rfl rfl,
          (deserialize_validation emptyItem emptyOrder (.obj [])).2.1 rfl⟩

/-- The item carries a numeric `quantity` that is not positive. -/
def quantityNonPositive (it : Item) : Prop :=
  (∃ n, it.quantity = .int n ∧ n ≤ 0) ∨ (∃ q, it.quantity = .float q ∧ q ≤ 0)

/-- The item carries a numeric `unit_price` that is negative. -/
def priceNegative (it : Item) : Prop :=
  (∃ n, it.unit_price = .int n ∧ n < 0) ∨ (∃ q, it.unit_price = .float q ∧ q < 0)

/-- C7: the declared check constraints `quantity > 0` and
`unit_price >= 0` hold at the storage boundary: persisting an item whose
quantity is a number at most 0, or whose unit price is a negative number,
fails on every insert and every update. -/
theorem storage_constraints_enforced (db : DB) (oid iid : Nat) (it : Item)
    (h : quantityNonPositive it ∨ priceNegative it) :
    isErr (itemInsert db oid it) = true ∧ isErr (itemUpdate db iid it) = true := by
  have hchk : sqlOkQuantity it.quantity = false ∨ sqlOkUnitPrice it.unit_price = false := by
    rcases h with (⟨n, hq, hn⟩ | ⟨q, hq, hn⟩) | (⟨n, hp, hn⟩ | ⟨q, hp, hn⟩)
    · exact Or.inl (by simp [sqlOkQuantity, hq]; omega)
    · exact Or.inl (by simp [sqlOkQuantity, hq])
    · exact Or.inr (by simp [sqlOkUnitPrice, hp]; omega)
    · exact Or.inr (by simp [sqlOkUnitPrice, hp]; linarith)
  constructor
  · unfold itemInsert
    split
    · rcases hchk with hc | hc
      · simp [hc, isErr]
      · split
        · simp [hc, isErr]
        · rfl
    · rfl
  · unfold itemUpdate
    split
    · rcases hchk with hc | hc
      · simp [hc, isErr]
      · split
        · simp [hc, isErr]
        · rfl
    · rfl

/-- Applies the storage-constraint theorem at a concrete item with
quantity 0 against the empty database. -/
theorem storage_constraints_enforced_witness :
    isErr (itemInsert DB.empty 1 ⟨.null, .null, .int 0, .int 5, .null⟩) = true
    ∧ isErr (itemUpdate DB.empty 1 ⟨.null, .null, .int 0, .int 5, .null⟩) = true :=
  storage_constraints_enforced DB.empty 1 1 ⟨.null, .null, .int 0, .int 5, .null⟩
    (Or.inl (Or.inl ⟨0, rfl, le_refl 0⟩))

/-- C6: `POST /orders` answers 415 and leaves the database unchanged (no
Order is created, `Order()`/`create()` are never reached) whenever the
request carries no `Content-Type` header or one different from
`application/json`: `check_content_type` aborts before any entity code
runs. -/
theorem post_wrong_content_type (req : Request) (db : DB)
    (h : getHeader req.headers "Content-Type" ≠ some "application/json") :
    (create_orders req db).1.status = 415 ∧ (create_orders req db).2 = db := by
  cases hct : getHeader req.headers "Content-Type" with
  | none => simp [create_orders, check_content_type, hct]
  | some v =>
    have hv : v ≠ "application/json" := by
      intro he; exact h (by rw [hct, he])
    simp [create_orders, check_content_type, hct, hv]

/-- Applies the 415 theorem to a request with no headers at all. -/
theorem post_wrong_content_type_witness :
    (create_orders ⟨[], .obj [("customer_id", .str "c")]⟩ DB.empty).1.status = 415
    ∧ (create_orders ⟨[], .obj [("customer_id", .str "c")]⟩ DB.empty).2 = DB.empty :=
  post_wrong_content_type ⟨[], .obj [("customer_id", .str "c")]⟩ DB.empty (by simp [getHeader])

/-- C10: the content-type check is exact string equality with
`application/json`: any present `Content-Type` value other than that exact
string — including parameterized forms such as
`application/json; charset=utf-8` — yields 415 and creates no Order. -/
theorem content_type_exact_match (req : Request) (db : DB) (v : String)
    (hv : getHeader req.headers "Content-Type" = some v)
    (hne : v ≠ "application/json") :
    (create_orders req db).1.status = 415 ∧ (create_orders req db).2 = db := by
  simp [create_orders, check_content_type, hv, hne]

/-- Applies the exact-match theorem to the parameterized content type
`application/json; charset=utf-8`. -/
theorem content_type_exact_match_witness :
    (create_orders ⟨[("Content-Type", "application/json; charset=utf-8")],
                    .obj [("customer_id", .str "c")]⟩ DB.empty).1.status = 415
    ∧ (create_orders ⟨[("Content-Type", "application/json; charset=utf-8")],
                      .obj [("customer_id", .str "c")]⟩ DB.empty).2 = DB.empty :=
  content_type_exact_match
    ⟨[("Content-Type", "application/json; charset=utf-8")], .obj [("customer_id", .str "c")]⟩
    DB.empty "application/json; charset=utf-8" rfl (by decide)

/-- C5: `GET /orders/{id}` answers 400 when the id path segment is not an
integer, 404 when no Order with that id exists, and 200 with the
serialized Order when one does. -/
theorem get_order_by_id (seg : String) (db : DB) :
    (parseIntSeg seg = none → (get_orders seg db).status = 400)
    ∧ (∀ oid, parseIntSeg seg = some oid → orderFind db oid = none →
        (get_orders seg db).status = 404)
    ∧ (∀ oid o, parseIntSeg seg = some oid → orderFind db oid = some o →
        (get_orders seg db).status = 200 ∧ (get_orders seg db).body = o.serialize) := by
  refine ⟨?_, ?_, ?_⟩
  · intro h; simp [get_orders, h]
  · intro oid h1 h2; simp [get_orders, h1, h2]
  · intro oid o h1 h2; simp [get_orders, h1, h2]

/-- Applies the GET-by-id theorem at concrete inputs: a non-integer
segment, a missing order, and an existing order. -/
theorem get_order_by_id_witness :
    (get_orders "abc" DB.empty).status = 400
    ∧ (get_orders "5" DB.empty).status = 404
    ∧ (get_orders "1" ⟨[⟨1, .str "c"⟩], [], 2, 2⟩).status = 200
    ∧ (get_orders "1" ⟨[⟨1, .str "c"⟩], [], 2, 2⟩).body
        = Order.serialize ⟨.int 1, .str "c", []⟩ :=
  ⟨(get_order_by_id "abc" DB.empty).1 rfl,
   (get_order_by_id "5" DB.empty).2.1 5 rfl rfl,
   ((get_order_by_id "1" ⟨[⟨1, .str "c"⟩], [], 2, 2⟩).2.2 1 ⟨.int 1, .str "c", []⟩ rfl rfl).1,
   ((get_order_by_id "1" ⟨[⟨1, .str "c"⟩], [], 2, 2⟩).2.2 1 ⟨.int 1, .str "c", []⟩ rfl rfl).2⟩

/-- C1 counterexample: this payload is a key/value structure containing
`customer_id`, and the request carries `Content-Type: application/json`,
yet `POST /orders` answers 400 — not 201 — because the payload's `items`
value is not iterable and `Order.deserialize` raises. -/
theorem create_order_claim_counterexample :
    (bodyField (JValue.obj [("customer_id", .str "c"), ("items", .int 5)]) "customer_id").isSome
      = true
    ∧ (create_orders ⟨[("Content-Type", "application/json")],
         .obj [("customer_id", .str "c"), ("items", .int 5)]⟩ DB.empty).1.status = 400
    ∧ (create_orders ⟨[("Content-Type", "application/json")],
         .obj [("customer_id", .str "c"), ("items", .int 5)]⟩ DB.empty).1.status ≠ 201 :=
  ⟨rfl, rfl, by decide⟩

/-- Every entry accepted by `itemPayloadOk` deserializes into a storable
Item entity. -/
theorem item_deser_of_payloadOk (x : JValue) (hx : itemPayloadOk x = true) :
    ∃ it, Item.deserialize emptyItem x = .ok it ∧ itemStorable it = true := by
  cases x
  case obj kvs =>
    simp only [itemPayloadOk] at hx
    cases hq : objFind kvs "quantity" with
    | none => rw [hq] at hx; simp at hx
    | some q =>
      cases hp : objFind kvs "unit_price" with
      | none => rw [hq, hp] at hx; simp at hx
      | some up =>
        rw [hq, hp] at hx
        simp only [Bool.and_eq_true] at hx
        obtain ⟨⟨hq2, hp2⟩, hn2⟩ := hx
        refine ⟨{ emptyItem with order_id := pyGet kvs "order_id", name := pyGet kvs "name", quantity := q, unit_price := up }, ?_, ?_⟩
        · simp [Item.deserialize, hq, hp]
        · simp [itemStorable, hq2, hp2, hn2]
  all_goals simp [itemPayloadOk] at hx

/-- A list of payload-valid entries deserializes into storable entities. -/
theorem deserializeItems_ok (xs : List JValue) (hall : xs.all itemPayloadOk = true) :
    ∃ its, deserializeItems xs = .ok its ∧ its.all itemStorable = true := by
  induction xs with
  | nil => exact ⟨[], rfl, rfl⟩
  | cons x rest ih =>
    rw [List.all_cons, Bool.and_eq_true] at hall
    obtain ⟨hx, hrest⟩ := hall
    obtain ⟨its, h1, h2⟩ := ih hrest
    obtain ⟨it, hd, hs⟩ := item_deser_of_payloadOk x hx
    exact ⟨it :: its, by simp [deserializeItems, hd, h1],
           by simp [List.all_cons, hs, h2]⟩

/-- Flushing a list of storable item entities under an existing order row
succeeds. -/
theorem insertItems_ok (xs : List Item) : ∀ (db : DB) (oid : Nat),
    xs.all itemStorable = true →
    db.orders.any (fun r => r.id == oid) = true →
    ∃ its db2, insertItems db oid xs = .ok (its, db2) := by
  induction xs with
  | nil => intro db oid _ _; exact ⟨[], db, rfl⟩
  | cons it rest ih =>
    intro db oid hall hany
    rw [List.all_cons, Bool.and_eq_true] at hall
    obtain ⟨hit, hrest⟩ := hall
    simp only [itemStorable, Bool.and_eq_true] at hit
    obtain ⟨⟨h1, h2⟩, h3⟩ := hit
    have hins : itemInsert db oid it =
        .ok (it.toRow db.nextItemId oid,
             { db with items := db.items ++ [it.toRow db.nextItemId oid],
                       nextItemId := db.nextItemId + 1 }) := by
      simp [itemInsert, hany, h1, h2, h3]
    obtain ⟨its, db2, hrec⟩ :=
      ih { db with items := db.items ++ [it.toRow db.nextItemId oid],
                   nextItemId := db.nextItemId + 1 } oid hrest hany
    exact ⟨(it.toRow db.nextItemId oid).toEntity :: its, db2,
           by simp [insertItems, hins, hrec]⟩

/-- Persisting an Order whose `customer_id` the schema accepts and whose
items are all storable succeeds while preserving `customer_id`. -/
theorem orderCreate_ok (o : Order) (db : DB)
    (hc : sqlOkCustomerId o.customer_id = true)
    (hi : o.items.all itemStorable = true) :
    ∃ o2 db2, orderCreate o db = .ok (o2, db2) ∧ o2.customer_id = o.customer_id := by
  have hany : (db.orders ++ [(⟨db.nextOrderId, o.customer_id⟩ : OrderRow)]).any
      (fun r => r.id == db.nextOrderId) = true := by
    simp
  obtain ⟨its, db2, hins⟩ :=
    insertItems_ok o.items
      { db with orders := db.orders ++ [(⟨db.nextOrderId, o.customer_id⟩ : OrderRow)],
                nextOrderId := db.nextOrderId + 1 }
      db.nextOrderId hi hany
  exact ⟨{ o with id := .int db.nextOrderId, items := its }, db2,
         by simp [orderCreate, hc, hins], rfl⟩

/-- A payload accepted by `payloadOk` deserializes into an Order with the
payload's `customer_id` and storable items. -/
theorem deserialize_of_payloadOk (body : JValue) (hok : payloadOk body = true) :
    ∃ o, Order.deserialize emptyOrder body = .ok o
      ∧ some o.customer_id = bodyField body "customer_id"
      ∧ sqlOkCustomerId o.customer_id = true
      ∧ o.items.all itemStorable = true := by
  cases body
  case obj kvs =>
    simp only [payloadOk] at hok
    cases hc : objFind kvs "customer_id" with
    | none => rw [hc] at hok; simp at hok
    | some cid =>
      rw [hc] at hok
      simp only [Bool.and_eq_true] at hok
      obtain ⟨hcid, hitems⟩ := hok
      cases hi : objFind kvs "items" with
      | none =>
        refine ⟨{ emptyOrder with customer_id := cid, items := [] }, ?_, ?_, hcid, rfl⟩
        · simp [Order.deserialize, hc, hi, pyIter, deserializeItems, emptyOrder]
        · simp [bodyField, hc]
      | some v =>
        rw [hi] at hitems
        cases v
        case arr xs =>
          obtain ⟨its, h1, h2⟩ := deserializeItems_ok xs hitems
          refine ⟨{ emptyOrder with customer_id := cid, items := its }, ?_, ?_, hcid, h2⟩
          · simp [Order.deserialize, hc, hi, pyIter, h1, emptyOrder]
          · simp [bodyField, hc]
        all_goals simp at hitems
  all_goals simp [payloadOk] at hok

/-- C1 amended: for every Order payload that is a key/value structure
whose `customer_id` is a string of at most 16 characters and whose
`items` entry, when present, is a list of key/value structures each
containing a `quantity` (a positive integer, or null) and a `unit_price`
(a non-negative number, or null) and whose `name`, when present, is null
or a string of at most 64 characters, `POST /orders` with Content-Type
`application/json` responds 201; the response body is the serialized
created Order whose `customer_id` equals the input's, and the response
carries a `Location` header. -/
theorem create_order_valid_payload (req : Request) (db : DB)
    (hct : getHeader req.headers "Content-Type" = some "application/json")
    (hok : payloadOk req.body = true) :
    (create_orders req db).1.status = 201
    ∧ bodyField (create_orders req db).1.body "customer_id" = bodyField req.body "customer_id"
    ∧ ("Location", "unknown") ∈ (create_orders req db).1.headers
    ∧ ∃ o2 : Order, (create_orders req db).1.body = o2.serialize
        ∧ some o2.customer_id = bodyField req.body "customer_id" := by
  obtain ⟨o, hdes, hcid, hc, hi⟩ := deserialize_of_payloadOk req.body hok
  obtain ⟨o2, db2, hcr, hcust⟩ := orderCreate_ok o db hc hi
  have hroute : create_orders req db = (⟨201, o2.serialize, [("Location", "unknown")]⟩, db2) := by
    simp [create_orders, check_content_type, hct, hdes, hcr]
  rw [hroute]
  have hserial : bodyField o2.serialize "customer_id" = some o2.customer_id := rfl
  refine ⟨rfl, ?_, by simp, o2, rfl, ?_⟩
  · rw [hserial, hcust, hcid]
  · rw [hcust, hcid]

/-- Applies the amended creation theorem to the concrete payload of the
spec's scenario (`customer_id="User0001"`, one widget item). -/
theorem create_order_valid_payload_witness :
    (create_orders ⟨[("Content-Type", "application/json")],
        .obj [("customer_id", .str "User0001"),
              ("items", .arr [.obj [("name", .str "widget"), ("quantity", .int 3),
                                    ("unit_price", .int 10)]])]⟩ DB.empty).1.status = 201
    ∧ bodyField (create_orders ⟨[("Content-Type", "application/json")],
        .obj [("customer_id", .str "User0001"),
              ("items", .arr [.obj [("name", .str "widget"), ("quantity", .int 3),
                                    ("unit_price", .int 10)]])]⟩ DB.empty).1.body "customer_id"
      = some (.str "User0001") := by
  have h := create_order_valid_payload ⟨[("Content-Type", "application/json")],
      .obj [("customer_id", .str "User0001"),
            ("items", .arr [.obj [("name", .str "widget"), ("quantity", .int 3),
                                  ("unit_price", .int 10)]])]⟩ DB.empty rfl rfl
  exact ⟨h.1, by rw [h.2.1]; rfl⟩

end OrderSvc
